import Mathlib

/-!
Shallow embedding of the YeongjoPT serve core:
  * `src/fastchat/serve/controller.py` — the worker registry (`Controller`),
  * `src/fastchat/serve/openai_api_server.py` — the OpenAI-compatible gateway,
  * `src/fastchat/serve/gradio_web_server.py` — the chat-session (Gradio) framing.

Python dictionaries are embedded as association lists with dict update
semantics (insert overwrites the existing binding in place, keys are looked
up front-to-back).  `time.time()` timestamps are embedded as integers: every
use in the source is an order comparison or a plain store, so only the order
structure matters.  Network effects (the direct status probe, the worker
stream) are passed in as explicit arguments describing the environment's
response.
-/

/-! ## Registry data model (`controller.py`) -/

/-- Embeds the `worker_status` dict a worker reports:
`{model_names, speed, queue_length}`. -/
structure WorkerStatus where
  model_names : List String
  speed : Int
  queue_length : Int
  deriving DecidableEq

/-- Embeds the `WorkerInfo` dataclass of `controller.py`. -/
structure WorkerInfo where
  model_names : List String
  speed : Int
  queue_length : Int
  check_heart_beat : Bool
  last_heart_beat : Int
  multimodal : Bool
  deriving DecidableEq

/-- The `Controller.worker_info` dict, as an association list in insertion
order. -/
abbrev Registry := List (String × WorkerInfo)

/-- Dict lookup (`worker_name in self.worker_info` / indexing). -/
def dictLookup : Registry → String → Option WorkerInfo
  | [], _ => none
  | p :: rest, k => if p.1 = k then some p.2 else dictLookup rest k

/-- Dict store (`self.worker_info[name] = ...`): overwrites the existing
binding in place, otherwise appends. -/
def dictInsert : Registry → String → WorkerInfo → Registry
  | [], k, v => [(k, v)]
  | p :: rest, k, v => if p.1 = k then (k, v) :: rest else p :: dictInsert rest k v

/-- Dict deletion (`del self.worker_info[name]`). -/
def dictErase : Registry → String → Registry
  | [], _ => []
  | p :: rest, k => if p.1 = k then rest else p :: dictErase rest k

/-- The `if not worker_status: worker_status = self.get_worker_status_direct(...)`
pattern: the provided status if truthy, otherwise the probe's response.
`none` models both an omitted/falsy status dict and a failed probe. -/
def statusOrProbe (worker_status probe : Option WorkerStatus) : Option WorkerStatus :=
  match worker_status with
  | some s => some s
  | none => probe

/-- The `WorkerInfo(...)` constructor call in `register_worker`:
fields from the status dict, plus the call's `check_heart_beat`,
`time.time()` and `multimodal`. -/
def mkWorkerInfo (s : WorkerStatus) (check_heart_beat : Bool) (now : Int)
    (multimodal : Bool) : WorkerInfo :=
  ⟨s.model_names, s.speed, s.queue_length, check_heart_beat, now, multimodal⟩

/-- Embeds `Controller.register_worker`.  `probe` is the environment's answer
to `get_worker_status_direct` (a network call), consulted only when
`worker_status` is absent.  Returns the Python return value paired with the
resulting registry. -/
def register_worker (st : Registry) (worker_name : String) (check_heart_beat : Bool)
    (worker_status probe : Option WorkerStatus) (multimodal : Bool) (now : Int) :
    Bool × Registry :=
  if st = [] then
    match statusOrProbe worker_status probe with
    | none => (false, st)
    | some s =>
        (true, dictInsert st worker_name (mkWorkerInfo s check_heart_beat now multimodal))
  else
    if dictLookup st worker_name = none then
      (false, st)
    else
      match statusOrProbe worker_status probe with
      | none => (false, st)
      | some s =>
          (true, dictInsert st worker_name (mkWorkerInfo s check_heart_beat now multimodal))

/-- Embeds `Controller.remove_worker` (membership test then `del`). -/
def remove_worker (st : Registry) (worker_name : String) : Registry :=
  dictErase st worker_name

/-- Embeds `Controller.receive_heart_beat`: when the endpoint is known,
mutate its `queue_length` and `last_heart_beat` in place and return `True`,
otherwise return `False`. -/
def receive_heart_beat (st : Registry) (worker_name : String) (queue_length : Int)
    (now : Int) : Bool × Registry :=
  if (dictLookup st worker_name).isSome then
    (true, st.map fun p =>
      if p.1 = worker_name then
        (p.1, ⟨p.2.model_names, p.2.speed, queue_length, p.2.check_heart_beat, now,
               p.2.multimodal⟩)
      else p)
  else
    (false, st)

/-- Embeds `Controller.remove_stale_workers_by_expiration`: collect the names
whose heartbeat is checked and older than `now - expiration`, then remove
each.  The expiration window (`CONTROLLER_HEART_BEAT_EXPIRATION`, an opaque
constant from `fastchat.constants`) is taken as a parameter. -/
def remove_stale_workers_by_expiration (expiration now : Int) (st : Registry) :
    Registry :=
  let expire := now - expiration
  let to_delete :=
    (st.filter fun p => p.2.check_heart_beat && decide (p.2.last_heart_beat < expire)).map
      Prod.fst
  to_delete.foldl remove_worker st

/-- Embeds `Controller.get_worker_address`: if the registry is nonempty, take
the first (and only) worker; return its endpoint when it lists the model,
otherwise the empty string. -/
def get_worker_address (st : Registry) (model_name : String) : String :=
  match st with
  | [] => ""
  | (worker_name, worker_data) :: _ =>
      if model_name ∈ worker_data.model_names then worker_name else ""

/-! ## Registry operation sequences -/

/-- One mutating registry operation, for the at-most-one-record invariant. -/
inductive RegistryOp where
  | register (worker_name : String) (check_heart_beat : Bool)
      (worker_status probe : Option WorkerStatus) (multimodal : Bool) (now : Int)
  | remove (worker_name : String)
  | heartbeat (worker_name : String) (queue_length : Int) (now : Int)
  | sweep (expiration now : Int)

/-- Apply one operation to the registry state. -/
def applyOp (st : Registry) : RegistryOp → Registry
  | .register n chb ws pr mm now => (register_worker st n chb ws pr mm now).2
  | .remove n => remove_worker st n
  | .heartbeat n q now => (receive_heart_beat st n q now).2
  | .sweep expiration now => remove_stale_workers_by_expiration expiration now st

/-- Run a sequence of operations from the empty registry. -/
def runOps (ops : List RegistryOp) : Registry :=
  ops.foldl applyOp []

/-! ## Worker stream chunks -/

/-- One parsed chunk of a worker's generation stream: the JSON dict
`{text?, error_code?, finish_reason?}`.  `error_code` is `0` when absent or
zero (both are falsy in every consumer: `data.get("error_code")` /
`data.get("error_code", 0) != 0`). -/
structure Chunk where
  text : Option String
  error_code : Int
  finish_reason : Option String
  deriving DecidableEq

/-- Python truthiness of `data.get("finish_reason")`: absent and the empty
string are falsy. -/
def finishTruthy : Option String → Bool
  | none => false
  | some s => decide (s ≠ "")

/-! ## OpenAI gateway streaming framing (`openai_api_server.py`) -/

/-- One Server-Sent-Events chunk emitted by `create_chat_completion.generate`,
abstracted to its payload: the role-announcement event, an incremental-delta
event with its `content`, the terminal event with its `finish_reason`, and
the literal `[DONE]` sentinel. -/
inductive SSEEvent where
  | role : SSEEvent
  | delta : String → SSEEvent
  | finish : String → SSEEvent
  | done : SSEEvent
  deriving DecidableEq

/-- The `async for` body of `create_chat_completion.generate`: stop (yielding
nothing further) on a truthy `error_code`; otherwise yield a delta event with
`data.get("text", "")` and stop after it when `finish_reason` is truthy. -/
def sseBody : List Chunk → List SSEEvent
  | [] => []
  | c :: rest =>
      if c.error_code ≠ 0 then []
      else
        SSEEvent.delta (c.text.getD "") ::
          (if finishTruthy c.finish_reason then [] else sseBody rest)

/-- Embeds `create_chat_completion.generate` (the streaming path): the role
event, the per-chunk loop, then the final chunk with `finish_reason="stop"`
and the `[DONE]` sentinel — always in that order. -/
def chat_completion_generate (chunks : List Chunk) : List SSEEvent :=
  SSEEvent.role :: (sseBody chunks ++ [SSEEvent.finish "stop", SSEEvent.done])

/-! ## OpenAI gateway non-streaming path and API-key gate -/

/-- The worker's reply to `POST /worker_generate`:
`{text?, error_code?, finish_reason?, usage:{...}}`, with the `.get` defaults
of the source applied to the usage counters. -/
structure GenResult where
  text : Option String
  error_code : Int
  finish_reason : Option String
  prompt_tokens : Int
  completion_tokens : Int
  total_tokens : Int
  deriving DecidableEq

/-- The gateway's response to the client, abstracted: an OpenAI-shaped
success payload, or an HTTP error (`HTTPException(status, detail)`). -/
inductive ApiResponse where
  | ok (content : String) (finish_reason : String)
      (prompt_tokens completion_tokens total_tokens : Int)
  | httpError (status : Nat) (detail : String)
  deriving DecidableEq

/-- Embeds the non-streaming branch of `create_chat_completion`: a truthy
`error_code` raises `HTTPException(500, result.get("text", "Generation
failed"))`; otherwise the result is formatted as an OpenAI response with the
worker's text, finish reason (default `"stop"`) and pass-through usage. -/
def chat_completion_nonstream (result : GenResult) : ApiResponse :=
  if result.error_code ≠ 0 then
    ApiResponse.httpError 500 (result.text.getD "Generation failed")
  else
    ApiResponse.ok (result.text.getD "") (result.finish_reason.getD "stop")
      result.prompt_tokens result.completion_tokens result.total_tokens

/-- Python truthiness of an optional string (the configured `api_key`):
`None` and `""` are falsy. -/
def pyTruthyStr : Option String → Bool
  | none => false
  | some s => decide (s ≠ "")

/-- Embeds `verify_api_key`: with a truthy configured key, reject (`False`,
standing for `HTTPException(401)`) when the bearer credentials are absent or
their token differs from the key; with no configured key the check always
passes.  `credentials` is the bearer token when the header is present. -/
def verify_api_key (api_key credentials : Option String) : Bool :=
  if pyTruthyStr api_key &&
      (match credentials with
       | none => true
       | some t => decide (some t ≠ api_key)) then
    false
  else
    true

/-- The `/v1/chat/completions` pipeline for a non-streaming request:
`verify_api_key` runs as a FastAPI dependency before the handler body, so a
rejection produces the 401 response with zero outbound backend calls; on
success the handler contacts the controller (worker-address resolve) and the
worker (generate) — two backend calls — and formats `workerResult`.  The
second component counts the backend calls made. -/
def chat_completion_request (api_key credentials : Option String)
    (workerResult : GenResult) : ApiResponse × Nat :=
  if verify_api_key api_key credentials then
    (chat_completion_nonstream workerResult, 2)
  else
    (ApiResponse.httpError 401 "Invalid API key", 0)

/-! ## Chat-session framing (`gradio_web_server.py`) -/

/-- Modelled from the spec: `SERVER_ERROR_MSG` is an opaque human-readable
constant imported from `fastchat.constants`, which is not under `src/`; only
its identity as a fixed string matters (it is the `.get("text", ...)`
default in `bot_response_fn`). -/
def SERVER_ERROR_MSG : String := "NETWORK ERROR. PLEASE REGENERATE OR REFRESH THIS PAGE."

/-- Embeds the chunk sequence delivered by `model_worker_stream_iter_fn`: the
successfully parsed chunks, followed — when the transport breaks — by one
synthetic error chunk carrying the error text and a nonzero error code. -/
def model_worker_stream_iter (parsed : List Chunk) (transportBreak : Bool)
    (errorCode : Int) (errText : String) : List Chunk :=
  parsed ++ (if transportBreak then [⟨some errText, errorCode, none⟩] else [])

/-- The streaming loop of `bot_response_fn`, as the sequence of
`conv.update_last_message(...)` writes it performs: on a nonzero
`error_code` write the chunk's text (default `SERVER_ERROR_MSG`) and return;
otherwise append the chunk's text to the accumulated response and write it
with the `"▌"` in-progress marker; after the stream ends write the
accumulated response without the marker. -/
def bot_loop : String → List Chunk → List String
  | acc, [] => [acc]
  | acc, c :: rest =>
      if c.error_code ≠ 0 then
        [c.text.getD SERVER_ERROR_MSG]
      else
        let acc2 := acc ++ c.text.getD ""
        (acc2 ++ "▌") :: bot_loop acc2 rest

/-- Embeds the streaming phase of `bot_response_fn` (worker already
resolved): the initial `"▌"` placeholder write, then the loop's writes.  The
final assistant-message state is the last write of this sequence. -/
def bot_response_writes (chunks : List Chunk) : List String :=
  "▌" :: bot_loop "" chunks

/-- The in-progress writes the loop performs for a run of successful chunks:
each is the accumulated text so far with the `"▌"` marker appended. -/
def inProgressWrites : String → List Chunk → List String
  | _, [] => []
  | acc, c :: rest =>
      let acc2 := acc ++ c.text.getD ""
      (acc2 ++ "▌") :: inProgressWrites acc2 rest

/-! ## Helper lemmas -/

/-- A run of successful, non-final chunks followed by an error chunk makes
the SSE loop emit exactly one verbatim delta per successful chunk and then
stop at the error, consuming nothing after it. -/
lemma sseBody_error_cut (good : List Chunk) (e : Chunk) (rest : List Chunk)
    (hg : ∀ c ∈ good, c.error_code = 0 ∧ finishTruthy c.finish_reason = false)
    (he : e.error_code ≠ 0) :
    sseBody (good ++ e :: rest) =
      good.map fun c => SSEEvent.delta (c.text.getD "") := by
  induction good with
  | nil => simp [sseBody, he]
  | cons c cs ih =>
      obtain ⟨h0, h1⟩ := hg c (by simp)
      have ih2 := ih fun x hx => hg x (by simp [hx])
      simp [sseBody, h0, h1, ih2]

/-- A run of successful chunks followed by an error chunk makes the chat
loop perform the in-progress writes and then exactly one final write holding
the error chunk's text. -/
lemma bot_loop_error_cut (good : List Chunk) (e : Chunk) (acc : String)
    (hg : ∀ c ∈ good, c.error_code = 0) (he : e.error_code ≠ 0) :
    bot_loop acc (good ++ [e]) =
      inProgressWrites acc good ++ [e.text.getD SERVER_ERROR_MSG] := by
  induction good generalizing acc with
  | nil => simp [bot_loop, inProgressWrites, he]
  | cons c cs ih =>
      have h0 := hg c (by simp)
      have ih2 := ih (acc ++ c.text.getD "") fun x hx => hg x (by simp [hx])
      simp [bot_loop, inProgressWrites, h0, ih2]

/-- `dictInsert` on a key already bound keeps the registry's length. -/
lemma dictInsert_length_of_mem (st : Registry) (k : String) (v : WorkerInfo)
    (h : dictLookup st k ≠ none) : (dictInsert st k v).length = st.length := by
  induction st with
  | nil => simp [dictLookup] at h
  | cons p rest ih =>
      by_cases hk : p.1 = k
      · simp [dictInsert, hk]
      · simp only [dictLookup, hk, if_false] at h
        simp [dictInsert, hk, ih h]

/-- `dictErase` never lengthens the registry. -/
lemma dictErase_length_le (st : Registry) (k : String) :
    (dictErase st k).length ≤ st.length := by
  induction st with
  | nil => simp [dictErase]
  | cons p rest ih =>
      by_cases hk : p.1 = k
      · simp [dictErase, hk]
      · simpa [dictErase, hk] using Nat.succ_le_succ ih

/-- Folding `remove_worker` over any name list never lengthens the registry. -/
lemma foldl_remove_length_le (names : List String) (st : Registry) :
    (names.foldl remove_worker st).length ≤ st.length := by
  induction names generalizing st with
  | nil => simp
  | cons n ns ih =>
      exact le_trans (ih (remove_worker st n)) (dictErase_length_le st n)

/-- Every single registry operation preserves "at most one record". -/
lemma applyOp_length_le (st : Registry) (op : RegistryOp) (h : st.length ≤ 1) :
    (applyOp st op).length ≤ 1 := by
  cases op with
  | register n chb ws pr mm now =>
      show (register_worker st n chb ws pr mm now).2.length ≤ 1
      by_cases hst : st = []
      · subst hst
        cases hsp : statusOrProbe ws pr with
        | none => simp [register_worker, hsp]
        | some s => simp [register_worker, hsp, dictInsert]
      · by_cases hlk : dictLookup st n = none
        · simpa [register_worker, hst, hlk] using h
        · cases hsp : statusOrProbe ws pr with
          | none => simpa [register_worker, hst, hlk, hsp] using h
          | some s =>
              simpa [register_worker, hst, hlk, hsp,
                dictInsert_length_of_mem st n _ hlk] using h
  | remove n => exact le_trans (dictErase_length_le st n) h
  | heartbeat n q now =>
      show (receive_heart_beat st n q now).2.length ≤ 1
      by_cases hlk : (dictLookup st n).isSome
      · simpa [receive_heart_beat, hlk] using h
      · simpa [receive_heart_beat, hlk] using h
  | sweep expiration now =>
      exact le_trans (foldl_remove_length_le _ st) h

/-- Folding operations from a registry with at most one record keeps at most
one record. -/
lemma foldl_applyOp_length_le (ops : List RegistryOp) (st : Registry)
    (h : st.length ≤ 1) : (ops.foldl applyOp st).length ≤ 1 := by
  induction ops generalizing st with
  | nil => exact h
  | cons op rest ih => exact ih (applyOp st op) (applyOp_length_le st op h)

/-! ## Claim theorems -/

/-- C1: for every sequence of `register_worker`, `remove_worker`,
`receive_heart_beat` and `remove_stale_workers_by_expiration` operations
starting from the empty registry, the registry holds at most one
`WorkerInfo` record at every observation point, and a registration for a
distinct endpoint while one record is present is rejected without mutating
the registry. -/
theorem registry_single_worker_invariant :
    (∀ ops : List RegistryOp, (runOps ops).length ≤ 1) ∧
    (∀ (st : Registry) (n : String) (chb : Bool) (ws pr : Option WorkerStatus)
        (mm : Bool) (now : Int), st ≠ [] → dictLookup st n = none →
      register_worker st n chb ws pr mm now = (false, st)) := by
  constructor
  · intro ops
    exact foldl_applyOp_length_le ops [] (by simp)
  · intro st n chb ws pr mm now hst hlk
    simp [register_worker, hst, hlk]

/-- C1 witness: the invariant and the rejection at concrete inputs. -/
theorem registry_single_worker_invariant_witness :
    (runOps [RegistryOp.register "A" true (some ⟨["m"], 1, 0⟩) none false 5,
             RegistryOp.sweep 10 100]).length ≤ 1 ∧
    register_worker [("A", mkWorkerInfo ⟨["m"], 1, 0⟩ true 5 false)] "B" true
        (some ⟨["m"], 1, 0⟩) none false 6 =
      (false, [("A", mkWorkerInfo ⟨["m"], 1, 0⟩ true 5 false)]) :=
  ⟨registry_single_worker_invariant.1 _,
   registry_single_worker_invariant.2 _ "B" true (some ⟨["m"], 1, 0⟩) none false 6
     (by decide) (by decide)⟩

/-- C4: registering endpoint `A` and then a distinct endpoint `B` while `A`'s
record is present succeeds for `A`, fails for `B` and leaves `A`'s record
unchanged; registering `A` twice with a provided (truthy) status succeeds
both times, and after the second call the stored record holds the second
call's status fields, `check_heart_beat`, `multimodal`, and the second
call's current time as `last_heart_beat`. -/
theorem register_conflict_and_supersede (A B : String) (hAB : A ≠ B)
    (s1 s2 sB : WorkerStatus) (pr1 pr2 prB : Option WorkerStatus)
    (chb1 chb2 chbB mm1 mm2 mmB : Bool) (t1 t2 tB : Int) :
    register_worker [] A chb1 (some s1) pr1 mm1 t1 =
      (true, [(A, mkWorkerInfo s1 chb1 t1 mm1)]) ∧
    register_worker [(A, mkWorkerInfo s1 chb1 t1 mm1)] B chbB (some sB) prB mmB tB =
      (false, [(A, mkWorkerInfo s1 chb1 t1 mm1)]) ∧
    register_worker [(A, mkWorkerInfo s1 chb1 t1 mm1)] A chb2 (some s2) pr2 mm2 t2 =
      (true, [(A, mkWorkerInfo s2 chb2 t2 mm2)]) := by
  refine ⟨?_, ?_, ?_⟩
  · simp [register_worker, statusOrProbe, dictInsert]
  · simp [register_worker, statusOrProbe, dictLookup, hAB]
  · simp [register_worker, statusOrProbe, dictLookup, dictInsert]

/-- C4 witness: the three register outcomes at concrete inputs. -/
theorem register_conflict_and_supersede_witness :
    register_worker [] "A" true (some ⟨["m"], 1, 0⟩) none false 1 =
      (true, [("A", mkWorkerInfo ⟨["m"], 1, 0⟩ true 1 false)]) ∧
    register_worker [("A", mkWorkerInfo ⟨["m"], 1, 0⟩ true 1 false)] "B" false
        (some ⟨["n"], 2, 3⟩) none true 2 =
      (false, [("A", mkWorkerInfo ⟨["m"], 1, 0⟩ true 1 false)]) ∧
    register_worker [("A", mkWorkerInfo ⟨["m"], 1, 0⟩ true 1 false)] "A" false
        (some ⟨["n"], 2, 3⟩) none true 3 =
      (true, [("A", mkWorkerInfo ⟨["n"], 2, 3⟩ false 3 true)]) :=
  register_conflict_and_supersede "A" "B" (by decide) ⟨["m"], 1, 0⟩ ⟨["n"], 2, 3⟩
    ⟨["n"], 2, 3⟩ none none none true false false false true true 1 3 2

/-- C5: after one run of the expiration sweep at time `now`, a registered
worker with `check_heart_beat = true` whose `last_heart_beat` is older than
`now - expiration` is absent from the registry, and a worker with
`check_heart_beat = false` is never removed by the sweep regardless of its
heartbeat age. -/
theorem sweep_expiration_behavior (name : String) (info : WorkerInfo)
    (expiration now : Int) :
    (info.check_heart_beat = true → info.last_heart_beat < now - expiration →
      remove_stale_workers_by_expiration expiration now [(name, info)] = []) ∧
    (info.check_heart_beat = false →
      remove_stale_workers_by_expiration expiration now [(name, info)] =
        [(name, info)]) := by
  constructor
  · intro hchb hold
    simp [remove_stale_workers_by_expiration, hchb, hold, remove_worker, dictErase]
  · intro hchb
    simp [remove_stale_workers_by_expiration, hchb]

/-- C5 witness: a stale checked worker is swept, an unchecked ancient one is
kept, at concrete inputs. -/
theorem sweep_expiration_behavior_witness :
    remove_stale_workers_by_expiration 10 100 [("A", mkWorkerInfo ⟨["m"], 1, 0⟩ true 5 false)] = [] ∧
    remove_stale_workers_by_expiration 10 100 [("A", mkWorkerInfo ⟨["m"], 1, 0⟩ false 5 false)] =
      [("A", mkWorkerInfo ⟨["m"], 1, 0⟩ false 5 false)] :=
  ⟨(sweep_expiration_behavior "A" (mkWorkerInfo ⟨["m"], 1, 0⟩ true 5 false) 10 100).1
      (by decide) (by decide),
   (sweep_expiration_behavior "A" (mkWorkerInfo ⟨["m"], 1, 0⟩ false 5 false) 10 100).2
      (by decide)⟩

/-- C7: `get_worker_address m` returns `""` when the registry is empty and
when the sole registered worker's `model_names` does not contain `m`, and
returns the worker's endpoint exactly when it does; the two empty cases
yield the same return value. -/
theorem get_worker_address_cases (m name : String) (info : WorkerInfo) :
    get_worker_address [] m = "" ∧
    (m ∉ info.model_names → get_worker_address [(name, info)] m = "") ∧
    (m ∈ info.model_names → get_worker_address [(name, info)] m = name) := by
  refine ⟨rfl, ?_, ?_⟩
  · intro h
    simp [get_worker_address, h]
  · intro h
    simp [get_worker_address, h]

/-- C7 witness: the three address cases at concrete inputs. -/
theorem get_worker_address_cases_witness :
    get_worker_address [] "m" = "" ∧
    get_worker_address [("A", mkWorkerInfo ⟨["other"], 1, 0⟩ true 5 false)] "m" = "" ∧
    get_worker_address [("A", mkWorkerInfo ⟨["m"], 1, 0⟩ true 5 false)] "m" = "A" :=
  ⟨(get_worker_address_cases "m" "A" (mkWorkerInfo ⟨["m"], 1, 0⟩ true 5 false)).1,
   (get_worker_address_cases "m" "A" (mkWorkerInfo ⟨["other"], 1, 0⟩ true 5 false)).2.1
      (by decide),
   (get_worker_address_cases "m" "A" (mkWorkerInfo ⟨["m"], 1, 0⟩ true 5 false)).2.2
      (by decide)⟩

/-- C8: `receive_heart_beat` on the registered endpoint updates that record's
`queue_length` to the given value and `last_heart_beat` to the current time
and returns `true`; on an unregistered endpoint it returns `false` and
leaves the registry unchanged. -/
theorem receive_heart_beat_behavior (st : Registry) (name : String)
    (info : WorkerInfo) (q now : Int) :
    receive_heart_beat [(name, info)] name q now =
      (true, [(name, ⟨info.model_names, info.speed, q, info.check_heart_beat, now,
                      info.multimodal⟩)]) ∧
    (dictLookup st name = none → receive_heart_beat st name q now = (false, st)) := by
  constructor
  · simp [receive_heart_beat, dictLookup]
  · intro h
    simp [receive_heart_beat, h]

/-- C8 witness: heartbeat on a registered and on an unregistered endpoint at
concrete inputs. -/
theorem receive_heart_beat_behavior_witness :
    receive_heart_beat [("A", mkWorkerInfo ⟨["m"], 1, 0⟩ true 5 false)] "A" 9 10 =
      (true, [("A", ⟨["m"], 1, 9, true, 10, false⟩)]) ∧
    receive_heart_beat [("A", mkWorkerInfo ⟨["m"], 1, 0⟩ true 5 false)] "B" 9 10 =
      (false, [("A", mkWorkerInfo ⟨["m"], 1, 0⟩ true 5 false)]) :=
  ⟨(receive_heart_beat_behavior [] "A" (mkWorkerInfo ⟨["m"], 1, 0⟩ true 5 false) 9 10).1,
   (receive_heart_beat_behavior [("A", mkWorkerInfo ⟨["m"], 1, 0⟩ true 5 false)] "B"
      (mkWorkerInfo ⟨["m"], 1, 0⟩ true 5 false) 9 10).2 (by decide)⟩

/-- The worker chunk sequence of the spec's SSE framing example:
`["Hi"], ["Hi there"], [error_code=0, finish_reason="stop"]`. -/
def exampleChunks : List Chunk :=
  [⟨some "Hi", 0, none⟩, ⟨some "Hi there", 0, none⟩, ⟨none, 0, some "stop"⟩]

/-- C2 counterexample: on the claimed input the framing does not emit the
claimed sequence role, delta "Hi", delta " there", stop, [DONE] — the code
copies each chunk's text into the delta verbatim instead of diffing it. -/
theorem sse_framing_claim_false :
    chat_completion_generate exampleChunks ≠
      [SSEEvent.role, SSEEvent.delta "Hi", SSEEvent.delta " there",
       SSEEvent.finish "stop", SSEEvent.done] := by
  decide

/-- C2 amended: on the worker chunk sequence `["Hi"], ["Hi there"],
[error_code=0, finish_reason="stop"]`, the framing emits, in order: one
role-announcement event with empty content, one delta event per received
chunk carrying that chunk's text field verbatim — the cumulative text, not
the difference from the previous chunk, with an empty delta for the finish
chunk whose text is absent — then one terminal event with an empty delta and
finish reason "stop", then the literal [DONE] sentinel. -/
theorem sse_framing_emits_verbatim_text :
    chat_completion_generate exampleChunks =
      [SSEEvent.role, SSEEvent.delta "Hi", SSEEvent.delta "Hi there",
       SSEEvent.delta "", SSEEvent.finish "stop", SSEEvent.done] := by
  decide

/-- C3: when the worker stream is a run of successful non-final chunks
followed by an error chunk (a transport break or any nonzero error code),
the chat framing's write sequence is the placeholder and in-progress writes
followed by exactly one final write equal to the error text (the marker
state is never the last write), the error text is written exactly once
whenever it differs from every earlier marker-bearing write, and the gateway
framing still emits the already-sent delta events followed by a terminal
event with finish reason "stop" and the [DONE] sentinel, retracting
nothing. -/
theorem midstream_break_finalization (good : List Chunk) (e : Chunk)
    (errTxt : String) (rest : List Chunk)
    (hgood : ∀ c ∈ good, c.error_code = 0 ∧ finishTruthy c.finish_reason = false)
    (hne : good ≠ []) (he : e.error_code ≠ 0) (ht : e.text = some errTxt) :
    bot_response_writes (good ++ [e]) =
      ("▌" :: inProgressWrites "" good) ++ [errTxt] ∧
    (bot_response_writes (good ++ [e])).getLast? = some errTxt ∧
    (errTxt ∉ ("▌" :: inProgressWrites "" good) →
      (bot_response_writes (good ++ [e])).count errTxt = 1) ∧
    chat_completion_generate (good ++ e :: rest) =
      SSEEvent.role :: ((good.map fun c => SSEEvent.delta (c.text.getD "")) ++
        [SSEEvent.finish "stop", SSEEvent.done]) := by
  have hwrites : bot_response_writes (good ++ [e]) =
      ("▌" :: inProgressWrites "" good) ++ [errTxt] := by
    have := bot_loop_error_cut good e "" (fun c hc => (hgood c hc).1) he
    simp [bot_response_writes, this, ht]
  refine ⟨hwrites, ?_, ?_, ?_⟩
  · rw [hwrites]
    exact List.getLast?_concat _
  · intro hnotin
    rw [hwrites, List.count_append]
    simp [List.count_eq_zero.mpr hnotin, List.count_singleton]
  · simp [chat_completion_generate, sseBody_error_cut good e rest hgood he]

/-- C3 witness: one successful chunk then a transport-break error chunk, at
concrete inputs. -/
theorem midstream_break_finalization_witness :
    bot_response_writes [⟨some "Hi", 0, none⟩, ⟨some "ERR", 7, none⟩] =
      ("▌" :: inProgressWrites "" [⟨some "Hi", 0, none⟩]) ++ ["ERR"] ∧
    (bot_response_writes [⟨some "Hi", 0, none⟩, ⟨some "ERR", 7, none⟩]).getLast? =
      some "ERR" ∧
    ("ERR" ∉ ("▌" :: inProgressWrites "" [(⟨some "Hi", 0, none⟩ : Chunk)]) →
      (bot_response_writes [⟨some "Hi", 0, none⟩, ⟨some "ERR", 7, none⟩]).count "ERR" = 1) ∧
    chat_completion_generate [⟨some "Hi", 0, none⟩, ⟨some "ERR", 7, none⟩] =
      SSEEvent.role ::
        (([(⟨some "Hi", 0, none⟩ : Chunk)].map fun c => SSEEvent.delta (c.text.getD "")) ++
          [SSEEvent.finish "stop", SSEEvent.done]) :=
  midstream_break_finalization [⟨some "Hi", 0, none⟩] ⟨some "ERR", 7, none⟩ "ERR" []
    (by decide) (by decide) (by decide) (by decide)

/-- C6 counterexample: a stream of one successful chunk and then a chunk
with nonzero error code and error text "worker exploded" produces SSE events
in which the error text appears nowhere and the terminal indicator is the
ordinary finish reason "stop" — the streaming framing swallows the error
text rather than passing it through with a non-success indicator. -/
theorem stream_error_text_dropped :
    chat_completion_generate [⟨some "Hi", 0, none⟩, ⟨some "worker exploded", 42, none⟩] =
      [SSEEvent.role, SSEEvent.delta "Hi", SSEEvent.finish "stop", SSEEvent.done] := by
  decide

/-- C6 amended: a non-streaming generate whose result has a nonzero error
code yields an HTTP 500 failure response carrying the worker's error text,
never a success response with empty content; in the streaming framing,
however, a chunk with nonzero error code is not passed through: the stream
is cut at the error and closed with the ordinary terminal event with finish
reason "stop" followed by [DONE], the error text appearing in no event. -/
theorem nonstream_error_surfaced_stream_error_dropped (r : GenResult)
    (rtxt : String) (good : List Chunk) (e : Chunk) (rest : List Chunk)
    (hr : r.error_code ≠ 0) (hrt : r.text = some rtxt)
    (hgood : ∀ c ∈ good, c.error_code = 0 ∧ finishTruthy c.finish_reason = false)
    (he : e.error_code ≠ 0) :
    chat_completion_nonstream r = ApiResponse.httpError 500 rtxt ∧
    chat_completion_generate (good ++ e :: rest) =
      SSEEvent.role :: ((good.map fun c => SSEEvent.delta (c.text.getD "")) ++
        [SSEEvent.finish "stop", SSEEvent.done]) := by
  constructor
  · simp [chat_completion_nonstream, hr, hrt]
  · simp [chat_completion_generate, sseBody_error_cut good e rest hgood he]

/-- C6 witness: the 500 response and the truncated stream at concrete
inputs. -/
theorem nonstream_error_surfaced_stream_error_dropped_witness :
    chat_completion_nonstream ⟨some "boom", 42, none, 0, 0, 0⟩ =
      ApiResponse.httpError 500 "boom" ∧
    chat_completion_generate
        [⟨some "Hi", 0, none⟩, ⟨some "boom", 42, none⟩] =
      SSEEvent.role ::
        (([(⟨some "Hi", 0, none⟩ : Chunk)].map fun c => SSEEvent.delta (c.text.getD "")) ++
          [SSEEvent.finish "stop", SSEEvent.done]) :=
  nonstream_error_surfaced_stream_error_dropped ⟨some "boom", 42, none, 0, 0, 0⟩
    "boom" [⟨some "Hi", 0, none⟩] ⟨some "boom", 42, none⟩ [] (by decide) (by decide)
    (by decide) (by decide)

/-- C9: when a (truthy) API key is configured, a chat-completion request
whose bearer credentials are absent or whose token differs from the key gets
the 401 response with zero backend calls made; when no key is configured,
`verify_api_key` passes every request regardless of credentials, and a
matching token also passes. -/
theorem api_key_gate (api_key credentials : Option String)
    (workerResult : GenResult) :
    (pyTruthyStr api_key = true →
      (credentials = none ∨ credentials ≠ api_key) →
      chat_completion_request api_key credentials workerResult =
        (ApiResponse.httpError 401 "Invalid API key", 0)) ∧
    (pyTruthyStr api_key = false → verify_api_key api_key credentials = true) ∧
    (credentials = api_key → verify_api_key api_key credentials = true) := by
  refine ⟨?_, ?_, ?_⟩
  · intro hkey hbad
    have hv : verify_api_key api_key credentials = false := by
      cases hbad with
      | inl habs => simp [verify_api_key, hkey, habs]
      | inr hdiff =>
          cases hcred : credentials with
          | none => simp [verify_api_key, hkey]
          | some t =>
              rw [hcred] at hdiff
              simp [verify_api_key, hkey, hdiff]
    simp [chat_completion_request, hv]
  · intro hkey
    simp [verify_api_key, hkey]
  · intro heq
    cases hcred : credentials with
    | none =>
        rw [hcred] at heq
        simp [verify_api_key, ← heq, pyTruthyStr]
    | some t =>
        rw [hcred] at heq
        simp [verify_api_key, ← heq]

/-- C9 witness: missing credentials with a configured key give the 401 with
no backend call; an unconfigured key passes the check; a matching token
passes. -/
theorem api_key_gate_witness :
    chat_completion_request (some "k") none ⟨some "hi", 0, none, 0, 0, 0⟩ =
      (ApiResponse.httpError 401 "Invalid API key", 0) ∧
    verify_api_key none (some "anything") = true ∧
    verify_api_key (some "k") (some "k") = true :=
  ⟨(api_key_gate (some "k") none ⟨some "hi", 0, none, 0, 0, 0⟩).1 (by decide)
      (Or.inl rfl),
   (api_key_gate none (some "anything") ⟨some "hi", 0, none, 0, 0, 0⟩).2.1 (by decide),
   (api_key_gate (some "k") (some "k") ⟨some "hi", 0, none, 0, 0, 0⟩).2.2 (by decide)⟩

/-- C10: re-registering the already-registered endpoint with `worker_status`
omitted while the direct status probe fails returns `False` and leaves the
registry — in particular the stored record — exactly as it was. -/
theorem reregister_probe_failure_atomic (st : Registry) (name : String)
    (info : WorkerInfo) (chb mm : Bool) (now : Int)
    (h : dictLookup st name = some info) :
    register_worker st name chb none none mm now = (false, st) := by
  have hne : st ≠ [] := by
    intro h0
    rw [h0] at h
    simp [dictLookup] at h
  simp [register_worker, hne, h, statusOrProbe]

/-- C10 witness: failed re-registration of the sole registered endpoint at
concrete inputs. -/
theorem reregister_probe_failure_atomic_witness :
    register_worker [("A", mkWorkerInfo ⟨["m"], 1, 0⟩ true 5 false)] "A" true none none
        false 9 =
      (false, [("A", mkWorkerInfo ⟨["m"], 1, 0⟩ true 5 false)]) :=
  reregister_probe_failure_atomic [("A", mkWorkerInfo ⟨["m"], 1, 0⟩ true 5 false)] "A"
    (mkWorkerInfo ⟨["m"], 1, 0⟩ true 5 false) true false 9 (by decide)
